import Mathlib

/-!
Verification development for the inventory reservation/allocation engine of
the `homework_chen_ecommerce_django` repository.

The embedding translates, from the source:
* `src/inventory/models.py` — `Inventory` (the stock lot ledger record) with
  `save`, `reserve_stock`, `release_stock`, `allocate_stock`;
  `StockReservation` with `is_expired` and `can_allocate`;
  `ReservationAllocation`; `StockAdjustment.apply_adjustment` with its
  `AdjustmentItem` rows; `Warehouse.update_capacity`.
* `src/inventory/services.py` — `InventoryService.check_product_availability`,
  `InventoryService.reserve_stock`, `InventoryService.release_stock`,
  `InventoryService.allocate_stock`.
* `src/inventory/signals.py` — `cleanup_expired_reservations`.

Modelling conventions:
* Quantities are `Int` (Python ints); money, timestamps and day numbers are
  abstracted to `Int`; `DecimalField` capacities are `Rat`.
* The Django database is a `LedgerState`: explicit lists of rows.  `save()`
  becomes a pure state update.  Per-row `save` side effects that do not touch
  the quantities the claims are about (`total_value`, the product-level
  aggregate `update_product_stock`, timestamps such as `released_at`) are
  omitted; the quantity fields are translated exactly.
* Two service entry points crash at runtime, and the embedding models the
  crashes (`PyOutcome`/`PyError`) instead of the dead code below them:
  `check_product_availability`'s first statement is
  `from .models import Inventory, Product` and `inventory/models.py`
  defines no `Product`, so every call — and therefore every
  `InventoryService.reserve_stock` call, which checks availability first —
  raises `ImportError` before reading any product or lot; and
  `services.py` never binds the name `models`, so
  `InventoryService.allocate_stock` raises `NameError` at
  `models.Sum('quantity')` (line 186) whenever its status-filtered lookup
  finds the reservation.  `transaction.atomic` rolls back when an
  exception escapes, and neither path has mutated anything when it
  raises, so an error outcome is paired with the unchanged pre-call state.
  `InventoryService.release_stock` and the expiry sweeper import only
  names that exist and are translated as executable code.
* The reservation-status strings `'reserved'`, `'partially_reserved'`,
  `'allocated'`, `'released'`, `'cancelled'` become the constructors of
  `ResStatus`; inventory statuses and adjustment reasons likewise.
-/

/-- Inventory row status (`Inventory.STATUS_CHOICES`). -/
inductive InvStatus where
  | active | quarantine | damaged | expired | reserved | in_transit
  deriving DecidableEq, Repr

/-- Reservation status (`StockReservation.RESERVATION_STATUS`). -/
inductive ResStatus where
  | reserved | partially_reserved | allocated | released | cancelled
  deriving DecidableEq, Repr

/-- Adjustment item reason (`AdjustmentItem.ADJUSTMENT_REASONS`). -/
inductive AdjReason where
  | damaged | expired | counting_error | theft | other
  deriving DecidableEq, Repr

/-- Adjustment status (`StockAdjustment.ADJUSTMENT_STATUS`). -/
inductive AdjStatus where
  | pending | approved | rejected | completed
  deriving DecidableEq, Repr

/-- A stock lot: the `Inventory` model of `src/inventory/models.py`.
Quantity fields and the batch/expiry attributes the lot-selection claims
need; cost fields are omitted. -/
structure Inventory where
  invId : Nat
  productId : Nat
  warehouseId : Nat
  quantity : Int
  reserved_quantity : Int
  available_quantity : Int
  status : InvStatus
  expiry_date : Option Int
  created_at : Int
  deriving DecidableEq, Repr

/-- `Inventory.save`: recomputes `available_quantity = quantity - reserved_quantity`
(the `total_value` recomputation and product-aggregate update are omitted). -/
def Inventory.save (inv : Inventory) : Inventory :=
  { inv with available_quantity := inv.quantity - inv.reserved_quantity }

/-- `Inventory.reserve_stock`: if `available_quantity >= quantity`, add to
`reserved_quantity` and save; else return `False` unchanged. -/
def Inventory.reserve_stock (inv : Inventory) (q : Int) : Bool × Inventory :=
  if inv.available_quantity ≥ q then
    (true, Inventory.save { inv with reserved_quantity := inv.reserved_quantity + q })
  else (false, inv)

/-- `Inventory.release_stock`: if `reserved_quantity >= quantity`, subtract and
save; else return `False` unchanged. -/
def Inventory.release_stock (inv : Inventory) (q : Int) : Bool × Inventory :=
  if inv.reserved_quantity ≥ q then
    (true, Inventory.save { inv with reserved_quantity := inv.reserved_quantity - q })
  else (false, inv)

/-- `Inventory.allocate_stock`: if `reserved_quantity >= quantity` and
`quantity >= quantity`, deduct both and save; else return `False` unchanged.
(The location/warehouse occupancy update on success is omitted.) -/
def Inventory.allocate_stock (inv : Inventory) (q : Int) : Bool × Inventory :=
  if inv.reserved_quantity ≥ q ∧ inv.quantity ≥ q then
    (true, Inventory.save
      { inv with quantity := inv.quantity - q, reserved_quantity := inv.reserved_quantity - q })
  else (false, inv)

/-- The per-item body of `StockAdjustment.apply_adjustment`: add the signed
`quantity_change` to `quantity`, clamp a negative result to `0`, switch the
status for damaged/expired reasons, and save. -/
def Inventory.applyAdjustItem (inv : Inventory) (change : Int) (reason : AdjReason) : Inventory :=
  let q1 := inv.quantity + change
  let q2 := if q1 < 0 then 0 else q1
  let st :=
    if reason = AdjReason.damaged then InvStatus.damaged
    else if reason = AdjReason.expired then InvStatus.expired
    else inv.status
  Inventory.save { inv with quantity := q2, status := st }

/-- One ledger operation on a single lot, with the nonnegative amounts the
callers pass (reservation quantities carry `MinValueValidator(1)` and the
service allocates `min(remaining, available)`); an adjustment carries a
signed delta. -/
inductive LotOp where
  | reserve (q : Nat)
  | release (q : Nat)
  | allocate (q : Nat)
  | adjust (d : Int) (reason : AdjReason)
  deriving DecidableEq, Repr

/-- Apply one ledger operation to a lot (failed guards leave it unchanged). -/
def LotOp.apply (inv : Inventory) : LotOp → Inventory
  | .reserve q => (inv.reserve_stock q).2
  | .release q => (inv.release_stock q).2
  | .allocate q => (inv.allocate_stock q).2
  | .adjust d r => inv.applyAdjustItem d r

/-- Run a sequence of ledger operations on a lot. -/
def runOps (inv : Inventory) (ops : List LotOp) : Inventory :=
  ops.foldl LotOp.apply inv

/-- Whether the operation is an adjustment. -/
def LotOp.isAdjust : LotOp → Bool
  | .adjust _ _ => true
  | _ => false

/-- The spec's full lot invariant:
`0 ≤ reserved ≤ on_hand`, `available = on_hand - reserved ≥ 0`. -/
@[reducible] def Inventory.quantInvariant (inv : Inventory) : Prop :=
  0 ≤ inv.reserved_quantity ∧ inv.reserved_quantity ≤ inv.quantity ∧
    inv.available_quantity = inv.quantity - inv.reserved_quantity ∧
    0 ≤ inv.available_quantity

/-- The weaker quantity facts that survive adjustments:
both counters stay nonnegative and `available` is the saved difference. -/
@[reducible] def Inventory.weakQuantProps (inv : Inventory) : Prop :=
  0 ≤ inv.reserved_quantity ∧ 0 ≤ inv.quantity ∧
    inv.available_quantity = inv.quantity - inv.reserved_quantity

/-- The `StockReservation` model: id, product, requested quantity, backorder
quantity, status and optional expiry timestamp (order/customer linkage and
the audit timestamps are omitted). -/
structure StockReservation where
  resId : Nat
  productId : Nat
  quantity : Int
  backorder_quantity : Int
  status : ResStatus
  expires_at : Option Int
  deriving DecidableEq, Repr

/-- `StockReservation.is_expired` at time `now`: `expires_at` set and in the
past (`timezone.now() > self.expires_at`). -/
def StockReservation.is_expired (r : StockReservation) (now : Int) : Bool :=
  match r.expires_at with
  | some t => now > t
  | none => false

/-- `StockReservation.can_allocate`: status in `{reserved, partially_reserved}`
and not expired.  (Defined in the model; the allocation service never calls it.) -/
def StockReservation.can_allocate (r : StockReservation) (now : Int) : Bool :=
  (r.status == ResStatus.reserved || r.status == ResStatus.partially_reserved) &&
    !(r.is_expired now)

/-- A `ReservationAllocation` row: (reservation, inventory, quantity). -/
structure ReservationAllocation where
  reservationId : Nat
  inventoryId : Nat
  quantity : Int
  deriving DecidableEq, Repr

/-- The ledger database: `Inventory`, `StockReservation` and
`ReservationAllocation` rows. -/
structure LedgerState where
  inventories : List Inventory
  reservations : List StockReservation
  allocations : List ReservationAllocation
  deriving DecidableEq, Repr

/-- Look an inventory row up by primary key. -/
def getInv (s : LedgerState) (id : Nat) : Option Inventory :=
  s.inventories.find? (fun i => i.invId == id)

/-- Write an inventory row back by primary key (`inventory.save()` at the
database level). -/
def setInv (s : LedgerState) (inv : Inventory) : LedgerState :=
  { s with inventories := s.inventories.map (fun i => if i.invId == inv.invId then inv else i) }

/-- Write a reservation row back by primary key. -/
def setRes (s : LedgerState) (r : StockReservation) : LedgerState :=
  { s with reservations := s.reservations.map (fun x => if x.resId == r.resId then r else x) }

/-- `reservation.allocations.all()`: the allocation rows of one reservation. -/
def allocationsOf (s : LedgerState) (rid : Nat) : List ReservationAllocation :=
  s.allocations.filter (fun a => a.reservationId == rid)

/-- The slice of the `Product` model row a reserve call names (the schema
of `products/models.py` has `is_active` and `allow_backorder`).  The
availability check never actually reads the row: it crashes at its import
statement first, and its dead body names `is_active_computed` and
`allow_backorders`, attributes the schema does not have. -/
structure Product where
  productId : Nat
  is_active : Bool
  allow_backorder : Bool
  deriving DecidableEq, Repr

/-- A Python runtime error escaping a service call.  The services'
`transaction.atomic` rolls the transaction back when an exception escapes,
so the caller observes the pre-call ledger state. -/
inductive PyError where
  | importError
  | nameError
  deriving DecidableEq, Repr

/-- A service call's outcome: a normal return value, or an uncaught
runtime error propagating out of the service. -/
inductive PyOutcome (α : Type) where
  | ok (a : α)
  | exn (e : PyError)
  deriving DecidableEq, Repr

/-- `InventoryService.check_product_availability`: its first statement is
`from .models import Inventory, Product` (services.py:27), and
`inventory/models.py` defines no `Product` — the model lives in the
products app and is referenced only through string foreign keys — so every
call raises `ImportError` before reading any product or lot.  Everything
below the import is unreachable dead code; had it run, it would also read
the nonexistent attributes `product.is_active_computed` (line 35) and
`product.allow_backorders` (line 52). -/
def check_product_availability (s : LedgerState) (p : Product) (quantity : Int)
    (wid : Option Nat) : PyOutcome (Bool × List Inventory) :=
  PyOutcome.exn PyError.importError

/-- The allocation loop of `InventoryService.reserve_stock`: walk the
candidate lots, reserving `min(remaining, available)` from each until the
remaining quantity reaches zero; collect `(inventory id, quantity)` pairs. -/
def reserveLoop (s : LedgerState) (remaining : Int) (cands : List Inventory)
    (acc : List (Nat × Int)) : LedgerState × Int × List (Nat × Int) :=
  match cands with
  | [] => (s, remaining, acc)
  | inv :: rest =>
    if remaining ≤ 0 then (s, remaining, acc)
    else
      let allocate_qty := min remaining inv.available_quantity
      let r := inv.reserve_stock allocate_qty
      if r.1 then
        reserveLoop (setInv s r.2) (remaining - allocate_qty) rest (acc ++ [(inv.invId, allocate_qty)])
      else reserveLoop s remaining rest acc

/-- `InventoryService.reserve_stock`: its own import (line 74) is fine, but
it checks availability first, so every call inherits
`check_product_availability`'s `ImportError`; the exception escapes
`transaction.atomic` having mutated nothing, and the caller observes the
unchanged ledger.  The remainder of the function (lines 81–126: the
allocation loop over the candidates, the unmet remainder saved as
`backorder_quantity`, the reservation saved with status always
`'reserved'` and no `expires_at`, and its allocation rows) is translated
in the `ok` branch but is unreachable.  `newResId` is the fresh primary
key the database would assign. -/
def InventoryService.reserve_stock (s : LedgerState) (p : Product) (quantity : Int)
    (wid : Option Nat) (newResId : Nat) : PyOutcome (Bool × Option Nat) × LedgerState :=
  match check_product_availability s p quantity wid with
  | PyOutcome.exn e => (PyOutcome.exn e, s)
  | PyOutcome.ok chk =>
    if chk.1 = false then (PyOutcome.ok (false, none), s)
    else
      let out := reserveLoop s quantity chk.2 []
      let backorder := if 0 < out.2.1 then out.2.1 else 0
      let res : StockReservation :=
        { resId := newResId, productId := p.productId, quantity := quantity,
          backorder_quantity := backorder, status := ResStatus.reserved, expires_at := none }
      (PyOutcome.ok (true, some newResId),
        { inventories := out.1.inventories,
          reservations := out.1.reservations ++ [res],
          allocations := out.1.allocations ++
            out.2.2.map (fun pr =>
              { reservationId := newResId, inventoryId := pr.1, quantity := pr.2 }) })

/-- The lookup filter of the release/allocate services:
`id=reservation_id, status__in=['reserved', 'partially_reserved']`. -/
def resActivePred (rid : Nat) (r : StockReservation) : Bool :=
  r.resId == rid && (r.status == ResStatus.reserved || r.status == ResStatus.partially_reserved)

/-- The lot loop of `InventoryService.release_stock`: release each allocation
row's quantity on its lot; the per-lot Boolean result is ignored. -/
def releaseLots (s : LedgerState) (lines : List ReservationAllocation) : LedgerState :=
  lines.foldl (fun st al =>
    match getInv st al.inventoryId with
    | none => st
    | some inv => setInv st (inv.release_stock al.quantity).2) s

/-- `InventoryService.release_stock`: look the reservation up with status in
`{reserved, partially_reserved}` (anything else is the not-found failure),
release every allocation row's lot quantity, and mark the reservation
`'released'`.  The allocation rows are kept (the source does not delete
them). -/
def InventoryService.release_stock (s : LedgerState) (rid : Nat) : Bool × LedgerState :=
  match s.reservations.find? (resActivePred rid) with
  | none => (false, s)
  | some r =>
    let s1 := releaseLots s (allocationsOf s rid)
    (true, setRes s1 { r with status := ResStatus.released })

/-- `InventoryService.allocate_stock`: the status-filtered lookup
(`id=reservation_id, status__in=['reserved', 'partially_reserved']`)
either raises `DoesNotExist` — caught, returning the not-found failure —
or finds the reservation; in that case the very next statement evaluates
`models.Sum('quantity')` (line 186) and the name `models` is unbound in
`services.py` (its imports are `transaction`, `ValidationError`,
`timezone`, `Decimal`, `logging` and names from `.models`), so a
`NameError` is raised before the shortfall check or any per-lot commit.
The exception escapes `transaction.atomic` with nothing mutated; the
shortfall comparison and the commit loop (lines 189–203) are unreachable
dead code, the expiry timestamp is never consulted, and no call ever
changes a lot or a reservation. -/
def InventoryService.allocate_stock (s : LedgerState) (rid : Nat) :
    PyOutcome Bool × LedgerState :=
  match s.reservations.find? (resActivePred rid) with
  | none => (PyOutcome.ok false, s)
  | some _ => (PyOutcome.exn PyError.nameError, s)

/-- The selection filter of the expiry sweeper:
`status__in=['reserved', 'partially_reserved'], expires_at__lt=now`. -/
def expiredPred (now : Int) (r : StockReservation) : Bool :=
  (r.status == ResStatus.reserved || r.status == ResStatus.partially_reserved) &&
    (match r.expires_at with
     | some t => t < now
     | none => false)

/-- `cleanup_expired_reservations` of `src/inventory/signals.py`: find every
expired reserved/partially-reserved reservation and call the release service
on each; each call's Boolean result is ignored, so one reservation's failed
release does not stop the rest of the batch. -/
def cleanup_expired_reservations (s : LedgerState) (now : Int) : LedgerState :=
  let expired := s.reservations.filter (expiredPred now)
  expired.foldl (fun st r => (InventoryService.release_stock st r.resId).2) s

/-- An `AdjustmentItem` row: the lot, the signed delta and the reason. -/
structure AdjustmentItem where
  inventoryId : Nat
  quantity_change : Int
  adjustment_reason : AdjReason
  deriving DecidableEq, Repr

/-- A `StockAdjustment` batch: review status plus its item rows. -/
structure StockAdjustment where
  status : AdjStatus
  items : List AdjustmentItem
  deriving DecidableEq, Repr

/-- `StockAdjustment.apply_adjustment`: refuse unless approved; otherwise add
each item's signed delta to its lot, clamping a negative on-hand result to
zero, and return `True`.  (The source then marks the adjustment
`'completed'`; the batch status update is not needed by the claims.) -/
def StockAdjustment.apply_adjustment (adj : StockAdjustment) (s : LedgerState) :
    Bool × LedgerState :=
  if adj.status ≠ AdjStatus.approved then (false, s)
  else
    (true, adj.items.foldl (fun st it =>
      match getInv st it.inventoryId with
      | none => st
      | some inv => setInv st (inv.applyAdjustItem it.quantity_change it.adjustment_reason)) s)

/-- The capacity slice of the `Warehouse` model. -/
structure Warehouse where
  total_capacity : Rat
  used_capacity : Rat
  deriving DecidableEq, Repr

/-- `Warehouse.update_capacity`: add or subtract the volume change according
to the action string, then clamp a negative `used_capacity` to zero
(the clamp runs whatever the action was). -/
def Warehouse.update_capacity (w : Warehouse) (volume_change : Rat) (action : String) :
    Warehouse :=
  let u :=
    if action = "increase" then w.used_capacity + volume_change
    else if action = "decrease" then w.used_capacity - volume_change
    else w.used_capacity
  { w with used_capacity := if u < 0 then 0 else u }

/-! Concrete states used by the counterexamples and witnesses. -/

/-- A valid lot: on hand 5, nothing reserved. -/
def invC1 : Inventory :=
  { invId := 1, productId := 1, warehouseId := 1, quantity := 5, reserved_quantity := 0,
    available_quantity := 5, status := InvStatus.active, expiry_date := none, created_at := 0 }

/-- Reserve 3, then an approved adjustment of −10 (clamped to on hand 0). -/
def c1ops : List LotOp := [LotOp.reserve 3, LotOp.adjust (-10) AdjReason.counting_error]

/-- A ledger holding only the lot `invC1`. -/
def sC2 : LedgerState := { inventories := [invC1], reservations := [], allocations := [] }

/-- An approved adjustment of −10 against lot 1 (on hand 5). -/
def adjC2 : StockAdjustment :=
  { status := AdjStatus.approved,
    items := [{ inventoryId := 1, quantity_change := -10, adjustment_reason := AdjReason.counting_error }] }

/-- Lot 1 for the allocation-rollback scenario: on hand 10, reserved 3. -/
def lotA : Inventory :=
  { invId := 1, productId := 1, warehouseId := 1, quantity := 10, reserved_quantity := 3,
    available_quantity := 7, status := InvStatus.active, expiry_date := none, created_at := 0 }

/-- Lot 2 after a concurrent adjustment shrank it below its reserved amount:
on hand 2, reserved 3. -/
def lotB : Inventory :=
  { invId := 2, productId := 1, warehouseId := 1, quantity := 2, reserved_quantity := 3,
    available_quantity := -1, status := InvStatus.active, expiry_date := none, created_at := 0 }

/-- A reservation of 6 spanning the two lots. -/
def resC3 : StockReservation :=
  { resId := 7, productId := 1, quantity := 6, backorder_quantity := 0,
    status := ResStatus.reserved, expires_at := none }

/-- The two-lot allocation state: lines of 3 on each lot. -/
def sC3 : LedgerState :=
  { inventories := [lotA, lotB], reservations := [resC3],
    allocations := [{ reservationId := 7, inventoryId := 1, quantity := 3 },
                    { reservationId := 7, inventoryId := 2, quantity := 3 }] }

/-- A lot with 2 of 5 reserved, claimed by reservation 1. -/
def lotC4 : Inventory :=
  { invId := 1, productId := 1, warehouseId := 1, quantity := 5, reserved_quantity := 2,
    available_quantity := 3, status := InvStatus.active, expiry_date := none, created_at := 0 }

/-- An active reservation of 2 against `lotC4`. -/
def resC4 : StockReservation :=
  { resId := 1, productId := 1, quantity := 2, backorder_quantity := 0,
    status := ResStatus.reserved, expires_at := none }

/-- The double-release scenario state. -/
def sC4 : LedgerState :=
  { inventories := [lotC4], reservations := [resC4],
    allocations := [{ reservationId := 1, inventoryId := 1, quantity := 2 }] }

/-- FEFO scenario, earlier lot: quantity 5, expiry 2024-01-01 (day-coded). -/
def lotE1 : Inventory :=
  { invId := 1, productId := 1, warehouseId := 1, quantity := 5, reserved_quantity := 0,
    available_quantity := 5, status := InvStatus.active, expiry_date := some 20240101,
    created_at := 1 }

/-- FEFO scenario, later lot: quantity 10, expiry 2024-06-01 (day-coded). -/
def lotE2 : Inventory :=
  { invId := 2, productId := 1, warehouseId := 1, quantity := 10, reserved_quantity := 0,
    available_quantity := 10, status := InvStatus.active, expiry_date := some 20240601,
    created_at := 2 }

/-- The FEFO-scenario ledger. -/
def sC5 : LedgerState := { inventories := [lotE1, lotE2], reservations := [], allocations := [] }

/-- An active product without backorder policy. -/
def pC5 : Product := { productId := 1, is_active := true, allow_backorder := false }

/-- A lot with 4 of 10 reserved for the expired-allocation scenario. -/
def lotC6 : Inventory :=
  { invId := 1, productId := 1, warehouseId := 1, quantity := 10, reserved_quantity := 4,
    available_quantity := 6, status := InvStatus.active, expiry_date := none, created_at := 0 }

/-- A reservation of 4 whose `expires_at` (time 0) is long past. -/
def resC6 : StockReservation :=
  { resId := 3, productId := 1, quantity := 4, backorder_quantity := 0,
    status := ResStatus.reserved, expires_at := some 0 }

/-- The expired-allocation scenario state. -/
def sC6 : LedgerState :=
  { inventories := [lotC6], reservations := [resC6],
    allocations := [{ reservationId := 3, inventoryId := 1, quantity := 4 }] }

/-- The same allocation state as `sC6` but with no expiry on reservation 3
(to show the outcome does not depend on expiry). -/
def sC6b : LedgerState :=
  { inventories := [lotC6],
    reservations := [{ resId := 3, productId := 1, quantity := 4, backorder_quantity := 0,
                       status := ResStatus.reserved, expires_at := none }],
    allocations := [{ reservationId := 3, inventoryId := 1, quantity := 4 }] }

/-- A state whose only reservation 9 is already `'allocated'`. -/
def sC6w : LedgerState :=
  { inventories := [lotC6],
    reservations := [{ resId := 9, productId := 1, quantity := 4, backorder_quantity := 0,
                       status := ResStatus.allocated, expires_at := none }],
    allocations := [{ reservationId := 9, inventoryId := 1, quantity := 4 }] }

/-- An active product with backorder policy enabled. -/
def pC7 : Product := { productId := 1, is_active := true, allow_backorder := true }

/-- A lot with only 4 available — below the requested 8. -/
def lotC7 : Inventory :=
  { invId := 1, productId := 1, warehouseId := 1, quantity := 4, reserved_quantity := 0,
    available_quantity := 4, status := InvStatus.active, expiry_date := none, created_at := 0 }

/-- The backorder scenario ledger. -/
def sC7 : LedgerState := { inventories := [lotC7], reservations := [], allocations := [] }

/-- The sweep scenario: reservation 1 expired (at 10 < now = 50), reservation 2
without expiry; lot 1 carries both reserved quantities. -/
def sC8 : LedgerState :=
  { inventories := [{ invId := 1, productId := 1, warehouseId := 1, quantity := 10,
                      reserved_quantity := 4, available_quantity := 6,
                      status := InvStatus.active, expiry_date := none, created_at := 0 }],
    reservations := [{ resId := 1, productId := 1, quantity := 2, backorder_quantity := 0,
                       status := ResStatus.reserved, expires_at := some 10 },
                     { resId := 2, productId := 1, quantity := 2, backorder_quantity := 0,
                       status := ResStatus.reserved, expires_at := none }],
    allocations := [{ reservationId := 1, inventoryId := 1, quantity := 2 },
                    { reservationId := 2, inventoryId := 1, quantity := 2 }] }

/-- A warehouse with 3 of 100 m³ in use. -/
def wC10 : Warehouse := { total_capacity := 100, used_capacity := 3 }

/-- Forget every reservation's expiry timestamp (used to state that the
allocation service never consults `expires_at`). -/
def eraseExpiry (s : LedgerState) : LedgerState :=
  { s with reservations := s.reservations.map (fun r => { r with expires_at := none }) }

/-- The status of the reservation row with the given id, when present. -/
def statusOf (s : LedgerState) (rid : Nat) : Option ResStatus :=
  (s.reservations.find? (fun r => r.resId == rid)).map (fun r => r.status)

/-! Lemmas about the single-lot operations. -/

/-- Every ledger operation keeps both counters nonnegative and keeps
`available_quantity` equal to the saved difference. -/
theorem weakQuantProps_apply (inv : Inventory) (op : LotOp) (h : inv.weakQuantProps) :
    (LotOp.apply inv op).weakQuantProps := by
  obtain ⟨h1, h2, h3⟩ := h
  cases op <;>
    simp only [LotOp.apply, Inventory.reserve_stock, Inventory.release_stock,
      Inventory.allocate_stock, Inventory.applyAdjustItem, Inventory.save,
      Inventory.weakQuantProps] <;>
    repeat' split <;> simp_all <;> omega

/-- A non-adjustment ledger operation preserves the full lot invariant. -/
theorem quantInvariant_apply (inv : Inventory) (op : LotOp) (hop : op.isAdjust = false)
    (h : inv.quantInvariant) : (LotOp.apply inv op).quantInvariant := by
  obtain ⟨h1, h2, h3, h4⟩ := h
  cases op with
  | adjust d r => simp [LotOp.isAdjust] at hop
  | reserve q =>
    simp only [LotOp.apply, Inventory.reserve_stock, Inventory.save, Inventory.quantInvariant]
    repeat' split <;> simp_all <;> omega
  | release q =>
    simp only [LotOp.apply, Inventory.release_stock, Inventory.save, Inventory.quantInvariant]
    repeat' split <;> simp_all <;> omega
  | allocate q =>
    simp only [LotOp.apply, Inventory.allocate_stock, Inventory.save, Inventory.quantInvariant]
    repeat' split <;> simp_all <;> omega

/-- The weak facts hold along any operation sequence. -/
theorem weakQuantProps_runOps (inv : Inventory) (ops : List LotOp) (h : inv.weakQuantProps) :
    (runOps inv ops).weakQuantProps := by
  induction ops generalizing inv with
  | nil => exact h
  | cons op rest ih =>
    simpa [runOps] using ih (LotOp.apply inv op) (weakQuantProps_apply inv op h)

/-- The full invariant holds along any adjustment-free operation sequence. -/
theorem quantInvariant_runOps (inv : Inventory) (ops : List LotOp)
    (hops : ∀ op ∈ ops, op.isAdjust = false) (h : inv.quantInvariant) :
    (runOps inv ops).quantInvariant := by
  induction ops generalizing inv with
  | nil => exact h
  | cons op rest ih =>
    have h1 := quantInvariant_apply inv op (hops op (List.mem_cons_self op rest)) h
    simpa [runOps] using
      ih (LotOp.apply inv op) (fun o ho => hops o (List.mem_cons_of_mem op ho)) h1

/-- The full invariant implies the weak facts. -/
theorem weakQuantProps_of_quantInvariant (inv : Inventory) (h : inv.quantInvariant) :
    inv.weakQuantProps := by
  obtain ⟨h1, h2, h3, h4⟩ := h
  exact ⟨h1, by omega, h3⟩

/-- C1 (amended): from a valid lot state, any sequence of the ledger
operations keeps `reserved_quantity ≥ 0`, `quantity ≥ 0` and
`available_quantity = quantity - reserved_quantity`; the claim's full
invariant `reserved ≤ quantity` and `available ≥ 0` is preserved whenever
the sequence contains no `apply_adjustment` step (an adjustment clamps the
on-hand quantity without touching the reserved quantity, so it can break
the full invariant — see the counterexample). -/
theorem C1_theorem (inv : Inventory) (ops : List LotOp) (h : inv.quantInvariant) :
    (runOps inv ops).weakQuantProps ∧
      ((∀ op ∈ ops, op.isAdjust = false) → (runOps inv ops).quantInvariant) :=
  ⟨weakQuantProps_runOps inv ops (weakQuantProps_of_quantInvariant inv h),
   fun hops => quantInvariant_runOps inv ops hops h⟩

/-- C1 witness: the amended theorem applied to the concrete lot `invC1` and
the sequence [reserve 2, release 1, allocate 1]. -/
theorem C1_witness :
    invC1.quantInvariant ∧
      ((runOps invC1 [LotOp.reserve 2, LotOp.release 1, LotOp.allocate 1]).weakQuantProps ∧
        ((∀ op ∈ [LotOp.reserve 2, LotOp.release 1, LotOp.allocate 1], op.isAdjust = false) →
          (runOps invC1 [LotOp.reserve 2, LotOp.release 1, LotOp.allocate 1]).quantInvariant)) :=
  ⟨by decide, C1_theorem invC1 [LotOp.reserve 2, LotOp.release 1, LotOp.allocate 1] (by decide)⟩

/-- Looking the key of a keyed write up after the write returns the written
row, provided some row with that key existed. -/
theorem find?_map_set_key (l : List Inventory) (key : Nat) (inv' : Inventory)
    (hkey : inv'.invId = key)
    (h : (l.find? (fun i => i.invId == key)).isSome) :
    (l.map (fun i => if i.invId == key then inv' else i)).find?
        (fun i => i.invId == key) = some inv' := by
  induction l with
  | nil => simp [List.find?] at h
  | cons a l ih =>
    rw [List.map_cons]
    by_cases ha : (a.invId == key) = true
    · rw [if_pos ha]
      have hp : (inv'.invId == key) = true := by simp [hkey]
      simp [List.find?, hp]
    · rw [if_neg ha]
      have ha' : (a.invId == key) = false := by simpa using ha
      simp only [List.find?, ha'] at h ⊢
      exact ih h

/-- The adjustment item body keeps the row's primary key. -/
theorem applyAdjustItem_invId (inv : Inventory) (change : Int) (reason : AdjReason) :
    (inv.applyAdjustItem change reason).invId = inv.invId := rfl

/-- A negative-result adjustment item clamps the on-hand quantity to zero. -/
theorem applyAdjustItem_clamp (inv : Inventory) (change : Int) (reason : AdjReason)
    (hneg : inv.quantity + change < 0) :
    (inv.applyAdjustItem change reason).quantity = 0 := by
  simp [Inventory.applyAdjustItem, Inventory.save, hneg]

/-- An approved single-item adjustment returns success and performs the
item's ledger update. -/
theorem apply_adjustment_single (s : LedgerState) (it : AdjustmentItem) :
    StockAdjustment.apply_adjustment { status := AdjStatus.approved, items := [it] } s =
      (true,
        match getInv s it.inventoryId with
        | none => s
        | some inv => setInv s (inv.applyAdjustItem it.quantity_change it.adjustment_reason)) := by
  simp [StockAdjustment.apply_adjustment]

/-- C2 (amended): applying an approved adjustment whose signed delta would
drive the lot's on-hand quantity below zero does not fail: it returns
success and silently clamps the on-hand quantity to zero (the source has no
`NegativeStockError`). -/
theorem C2_theorem (s : LedgerState) (inv : Inventory) (change : Int) (reason : AdjReason)
    (hfind : getInv s inv.invId = some inv)
    (hneg : inv.quantity + change < 0) :
    (StockAdjustment.apply_adjustment
        { status := AdjStatus.approved,
          items := [{ inventoryId := inv.invId, quantity_change := change,
                      adjustment_reason := reason }] } s).1 = true ∧
      (getInv (StockAdjustment.apply_adjustment
          { status := AdjStatus.approved,
            items := [{ inventoryId := inv.invId, quantity_change := change,
                        adjustment_reason := reason }] } s).2 inv.invId).map
          Inventory.quantity = some 0 := by
  have hfind' : List.find? (fun i => i.invId == inv.invId) s.inventories = some inv := hfind
  have hsome : (List.find? (fun i => i.invId == inv.invId) s.inventories).isSome := by
    rw [hfind']; rfl
  constructor
  · simp [StockAdjustment.apply_adjustment]
  · rw [apply_adjustment_single, hfind]
    show ((s.inventories.map
        (fun i => if i.invId == inv.invId then inv.applyAdjustItem change reason else i)).find?
        (fun i => i.invId == inv.invId)).map Inventory.quantity = some 0
    rw [find?_map_set_key s.inventories inv.invId (inv.applyAdjustItem change reason) rfl hsome]
    simp [applyAdjustItem_clamp inv change reason hneg]

/-- C2 witness: the amended theorem applied to the lot `invC1` (on hand 5)
and a −10 adjustment. -/
theorem C2_witness :
    getInv sC2 invC1.invId = some invC1 ∧ invC1.quantity + (-10) < 0 ∧
      ((StockAdjustment.apply_adjustment
          { status := AdjStatus.approved,
            items := [{ inventoryId := invC1.invId, quantity_change := -10,
                        adjustment_reason := AdjReason.counting_error }] } sC2).1 = true ∧
        (getInv (StockAdjustment.apply_adjustment
            { status := AdjStatus.approved,
              items := [{ inventoryId := invC1.invId, quantity_change := -10,
                          adjustment_reason := AdjReason.counting_error }] } sC2).2
            invC1.invId).map Inventory.quantity = some 0) :=
  ⟨by decide, by decide,
    C2_theorem sC2 invC1 (-10) AdjReason.counting_error (by decide) (by decide)⟩

/-- C2 counterexample: the approved adjustment `adjC2` (delta −10 against a
lot with on hand 5) returns success and leaves the lot at on hand 0 — the
negative result is silently clamped, not rejected, and the quantity does
not stay at its prior value 5. -/
theorem C2_counterexample :
    (adjC2.apply_adjustment sC2).1 = true ∧
      (getInv (adjC2.apply_adjustment sC2).2 1).map Inventory.quantity = some 0 ∧
      invC1.quantity = 5 := by
  decide

/-- C3: evaluating the allocation service at the failing input `sC3` — an
active reservation of 6 with lines of 3 on lots 1 and 2.  The
status-filtered lookup succeeds, so the call raises `NameError` (the name
`models` is unbound in `services.py`) at the `Sum` aggregate, before the
shortfall comparison or any per-lot commit; the ledger is returned
unchanged, so after the failure every touched lot shows its pre-allocation
on-hand and reserved values.  The claimed `AllocationShortfall` error and
the commit loop are unreachable dead code: the allocation engine can never
commit anything at all. -/
theorem C3_theorem :
    (InventoryService.allocate_stock sC3 7).1 = PyOutcome.exn PyError.nameError ∧
      (InventoryService.allocate_stock sC3 7).2 = sC3 ∧
      getInv sC3 1 = some lotA ∧ getInv sC3 2 = some lotB ∧
      lotA.quantity = 10 ∧ lotA.reserved_quantity = 3 ∧
      lotB.quantity = 2 ∧ lotB.reserved_quantity = 3 := by
  decide

/-- C10: `Warehouse.update_capacity` never leaves `used_capacity` negative —
whatever the action and volume change, the unconditional clamp floors the
counter at zero — and a decrease larger than the current `used_capacity` is
silently clamped to zero rather than rejected. -/
theorem C10_theorem (w : Warehouse) (volume_change : Rat) (action : String) :
    0 ≤ (w.update_capacity volume_change action).used_capacity ∧
      (w.used_capacity - volume_change < 0 →
        (w.update_capacity volume_change "decrease").used_capacity = 0) := by
  constructor
  · simp only [Warehouse.update_capacity]
    split_ifs <;> linarith
  · intro h
    have hne : ¬ ("decrease" : String) = "increase" := by decide
    simp only [Warehouse.update_capacity, if_neg hne, if_pos rfl]
    exact if_pos h

/-- C10 witness: the theorem applied to the warehouse `wC10` (3 m³ used) and
a decrease of 7 m³, which clamps to zero. -/
theorem C10_witness :
    0 ≤ (wC10.update_capacity 7 "decrease").used_capacity ∧
      (wC10.update_capacity 7 "decrease").used_capacity = 0 :=
  ⟨(C10_theorem wC10 7 "decrease").1,
    (C10_theorem wC10 7 "decrease").2 (by norm_num [wC10])⟩

/-- Releasing lot quantities never touches the reservation rows. -/
theorem releaseLots_reservations (lines : List ReservationAllocation) (s : LedgerState) :
    (releaseLots s lines).reservations = s.reservations := by
  induction lines generalizing s with
  | nil => rfl
  | cons al rest ih =>
    have hstep : ((fun (st : LedgerState) (a : ReservationAllocation) =>
        match getInv st a.inventoryId with
        | none => st
        | some inv => setInv st (inv.release_stock a.quantity).2) s al).reservations
          = s.reservations := by
      show (match getInv s al.inventoryId with
        | none => s
        | some inv => setInv s (inv.release_stock al.quantity).2).reservations = s.reservations
      cases getInv s al.inventoryId <;> rfl
    exact (ih _).trans hstep

/-- A released reservation row never satisfies the service lookup filter. -/
theorem resActivePred_released (rid : Nat) (r : StockReservation) :
    resActivePred rid { r with status := ResStatus.released } = false := by
  simp [resActivePred]

/-- C4 (amended): the second release of the same reservation is a no-op on
the whole ledger state — but it returns failure (the not-found/already-
released error), not the claimed success: after a successful release the
reservation's status is `'released'`, so the status-filtered lookup of the
second call finds nothing and the service returns `False` with the state
unchanged. -/
theorem C4_theorem (s : LedgerState) (rid : Nat)
    (h : (InventoryService.release_stock s rid).1 = true) :
    InventoryService.release_stock (InventoryService.release_stock s rid).2 rid =
      (false, (InventoryService.release_stock s rid).2) := by
  cases hf : s.reservations.find? (resActivePred rid) with
  | none =>
    unfold InventoryService.release_stock at h
    rw [hf] at h
    simp at h
  | some r =>
    have hpred : resActivePred rid r = true := List.find?_some hf
    have hid : r.resId = rid := by
      have := hpred
      simp only [resActivePred, Bool.and_eq_true, beq_iff_eq] at this
      exact this.1
    unfold InventoryService.release_stock
    rw [hf]
    have hres2 : (setRes (releaseLots s (allocationsOf s rid))
        { r with status := ResStatus.released }).reservations =
        s.reservations.map (fun x =>
          if x.resId == ({ r with status := ResStatus.released } : StockReservation).resId
          then { r with status := ResStatus.released } else x) := by
      show (releaseLots s (allocationsOf s rid)).reservations.map _ = _
      rw [releaseLots_reservations]
    have hnone : (setRes (releaseLots s (allocationsOf s rid))
        { r with status := ResStatus.released }).reservations.find? (resActivePred rid)
        = none := by
      rw [hres2, List.find?_eq_none]
      intro x hx
      rcases List.mem_map.mp hx with ⟨y, hy, hfy⟩
      by_cases hc : (y.resId == r.resId) = true
      · rw [if_pos hc] at hfy
        rw [← hfy]
        simp [resActivePred]
      · rw [if_neg hc] at hfy
        rw [← hfy]
        have : ¬ y.resId = rid := by
          intro he
          exact hc (by simp [he, hid])
        simp [resActivePred, this]
    rw [hnone]

/-- C4 witness: in the state `sC4` the first release succeeds and the second
returns failure with the ledger unchanged. -/
theorem C4_witness :
    (InventoryService.release_stock sC4 1).1 = true ∧
      InventoryService.release_stock (InventoryService.release_stock sC4 1).2 1 =
        (false, (InventoryService.release_stock sC4 1).2) :=
  ⟨by decide, C4_theorem sC4 1 (by decide)⟩

/-- C4 counterexample: in the concrete state `sC4` (a lot with 2 of 5
reserved and an active reservation of 2) the first `ReleaseReservation`
returns success but the second returns `False` — not the claimed `ok` both
times — while the ledger state after the second call equals the state after
the first. -/
theorem C4_counterexample :
    (InventoryService.release_stock sC4 1).1 = true ∧
      (InventoryService.release_stock (InventoryService.release_stock sC4 1).2 1).1 = false ∧
      (InventoryService.release_stock (InventoryService.release_stock sC4 1).2 1).2 =
        (InventoryService.release_stock sC4 1).2 ∧
      (getInv (InventoryService.release_stock sC4 1).2 1).map Inventory.reserved_quantity =
        some 0 := by
  decide

/-- C5 (amended): reservation lot selection never occurs.  Every `Reserve`
call fails with the `ImportError` raised by
`check_product_availability`'s first statement, before any lot is read,
and the ledger's inventories are exactly the pre-call rows — no FEFO (or
any other) lot ordering is ever applied. -/
theorem C5_theorem (s : LedgerState) (p : Product) (q : Int) (wid : Option Nat) (rid : Nat) :
    (InventoryService.reserve_stock s p q wid rid).1 = PyOutcome.exn PyError.importError ∧
      (InventoryService.reserve_stock s p q wid rid).2.inventories = s.inventories :=
  ⟨rfl, rfl⟩

/-- C5 counterexample: with the 5-unit lot expiring 2024-01-01 and the
10-unit lot expiring 2024-06-01, reserving 8 draws nothing at all: the
call raises `ImportError` and both lots' reserved quantities stay 0 — not
the claimed 5 from the first lot and 3 from the second. -/
theorem C5_counterexample :
    lotE1.expiry_date = some 20240101 ∧ lotE2.expiry_date = some 20240601 ∧
      (InventoryService.reserve_stock sC5 pC5 8 none 100).1 =
        PyOutcome.exn PyError.importError ∧
      (getInv (InventoryService.reserve_stock sC5 pC5 8 none 100).2 1).map
        Inventory.reserved_quantity = some 0 ∧
      (getInv (InventoryService.reserve_stock sC5 pC5 8 none 100).2 2).map
        Inventory.reserved_quantity = some 0 := by
  decide

/-- C7 (amended): every reserve call fails — with the `ImportError` of the
availability check's import statement, not `InsufficientStock` — whatever
the product's backorder policy; no lot's reserved quantity is changed and
no reservation or allocation line is created, so a `backorder_quantity`
or the status `'partially_reserved'` is never recorded. -/
theorem C7_theorem (s : LedgerState) (p : Product) (q : Int) (wid : Option Nat) (rid : Nat) :
    check_product_availability s p q wid = PyOutcome.exn PyError.importError ∧
      (InventoryService.reserve_stock s p q wid rid).1 = PyOutcome.exn PyError.importError ∧
      (InventoryService.reserve_stock s p q wid rid).2.reservations = s.reservations ∧
      (InventoryService.reserve_stock s p q wid rid).2.allocations = s.allocations :=
  ⟨rfl, rfl, rfl, rfl⟩

/-- C7 counterexample: with backorder enabled and a shortfall (4 available,
8 requested), no reservation with `backorder_quantity = 8` and status
`'partially_reserved'` is created — the call raises `ImportError` and the
reservation table stays empty. -/
theorem C7_counterexample :
    pC7.allow_backorder = true ∧
      (InventoryService.reserve_stock sC7 pC7 8 none 100).1 =
        PyOutcome.exn PyError.importError ∧
      (InventoryService.reserve_stock sC7 pC7 8 none 100).2.reservations = [] := by
  decide

/-- The release/allocate lookup filter does not read `expires_at`. -/
theorem resActivePred_eraseExpiry (rid : Nat) :
    (resActivePred rid) ∘ (fun r => { r with expires_at := none } : StockReservation → StockReservation) =
      resActivePred rid :=
  funext fun _ => rfl

/-- C6 (amended): no `AllocateReservation` call ever changes the ledger or
allocates a reservation.  With status outside `{reserved,
partially_reserved}` the lookup fails and the service returns the
not-found failure; with status inside it raises `NameError` at the `Sum`
aggregate — whether `expires_at` is past, future or absent, since the
expiry timestamp is never consulted (erasing every `expires_at` changes
nothing; `StockReservation.can_allocate` encodes the expiry check but the
service never calls it). -/
theorem C6_theorem (s : LedgerState) (rid : Nat) :
    (InventoryService.allocate_stock s rid).2 = s ∧
      ((InventoryService.allocate_stock s rid).1 = PyOutcome.ok false ↔
        s.reservations.find? (resActivePred rid) = none) ∧
      ((InventoryService.allocate_stock s rid).1 = PyOutcome.exn PyError.nameError ↔
        (s.reservations.find? (resActivePred rid)).isSome = true) ∧
      (InventoryService.allocate_stock (eraseExpiry s) rid).1 =
        (InventoryService.allocate_stock s rid).1 := by
  have hfind : (eraseExpiry s).reservations.find? (resActivePred rid) =
      (s.reservations.find? (resActivePred rid)).map
        (fun r => { r with expires_at := none }) := by
    show (s.reservations.map _).find? _ = _
    rw [List.find?_map, resActivePred_eraseExpiry]
  cases hf : s.reservations.find? (resActivePred rid) with
  | none => simp [InventoryService.allocate_stock, hf, hfind]
  | some r => simp [InventoryService.allocate_stock, hf, hfind]

/-- C6 counterexample: reservation 3 of `sC6` has `expires_at = some 0`,
long past at `now = 100` (`is_expired` true, `can_allocate` false), yet
`AllocateReservation` does not fail with a structured `ReservationExpired`
error: it raises the `NameError` crash — and it raises exactly the same
error on the unexpired variant `sC6b`, so expiry plays no role in the
outcome.  (No lot changes on either call.) -/
theorem C6_counterexample :
    resC6.is_expired 100 = true ∧ resC6.can_allocate 100 = false ∧
      InventoryService.allocate_stock sC6 3 = (PyOutcome.exn PyError.nameError, sC6) ∧
      InventoryService.allocate_stock sC6b 3 = (PyOutcome.exn PyError.nameError, sC6b) := by
  decide

/-- C9: the round trip's first half can never happen.  `Reserve` on the
two-lot state `sC5` raises `ImportError` (from the first statement of the
availability check) and returns the ledger unchanged, so no reservation is
ever successfully created — and a `ReleaseReservation` performed
immediately after the failed reserve is the very same call as on the
pre-reserve state, for every reservation id. -/
theorem C9_theorem :
    (InventoryService.reserve_stock sC5 pC5 8 none 100).1 =
      PyOutcome.exn PyError.importError ∧
      (InventoryService.reserve_stock sC5 pC5 8 none 100).2 = sC5 ∧
      (∀ rid2 : Nat, InventoryService.release_stock
        (InventoryService.reserve_stock sC5 pC5 8 none 100).2 rid2 =
        InventoryService.release_stock sC5 rid2) :=
  ⟨rfl, rfl, fun _ => rfl⟩

/-- Reservation analog of `find?_map_set_key`: after a keyed write, looking
the key up finds the written row, provided a row with that key existed. -/
theorem find?_resId_map_update (l : List StockReservation) (key : Nat)
    (r' : StockReservation) (hk : r'.resId = key)
    (h : (l.find? (fun x => x.resId == key)).isSome) :
    (l.map (fun x => if x.resId == key then r' else x)).find?
        (fun x => x.resId == key) = some r' := by
  induction l with
  | nil => simp [List.find?] at h
  | cons a l ih =>
    rw [List.map_cons]
    by_cases ha : (a.resId == key) = true
    · rw [if_pos ha]
      have hp : (r'.resId == key) = true := by simp [hk]
      simp [List.find?, hp]
    · rw [if_neg ha]
      have ha' : (a.resId == key) = false := by simpa using ha
      simp only [List.find?, ha'] at h ⊢
      exact ih h

/-- A keyed write at one key leaves lookups of every other key unchanged. -/
theorem find?_resId_map_update_ne (l : List StockReservation) (key rid' : Nat)
    (r' : StockReservation) (hk : r'.resId = key) (hne : rid' ≠ key) :
    (l.map (fun x => if x.resId == key then r' else x)).find?
        (fun x => x.resId == rid') = l.find? (fun x => x.resId == rid') := by
  induction l with
  | nil => rfl
  | cons a l ih =>
    rw [List.map_cons]
    by_cases ha : (a.resId == key) = true
    · rw [if_pos ha]
      have h1 : (r'.resId == rid') = false := by
        simp only [beq_eq_false_iff_ne, ne_eq, hk]
        exact fun h => hne h.symm
      have h2 : (a.resId == rid') = false := by
        simp only [beq_iff_eq] at ha
        simp only [beq_eq_false_iff_ne, ne_eq, ha]
        exact fun h => hne h.symm
      simp only [List.find?, h1, h2]
      exact ih
    · rw [if_neg ha]
      cases hp : (a.resId == rid') with
      | true => simp [List.find?, hp]
      | false =>
        simp only [List.find?, hp]
        exact ih

/-- A row found by its id alone, when its status lies in
`{reserved, partially_reserved}`, is also what the status-filtered service
lookup finds. -/
theorem find?_resActive_of_find?_resId (l : List StockReservation) (rid : Nat)
    (x : StockReservation)
    (hf : l.find? (fun r => r.resId == rid) = some x)
    (hs : x.status = ResStatus.reserved ∨ x.status = ResStatus.partially_reserved) :
    l.find? (resActivePred rid) = some x := by
  induction l with
  | nil => simp [List.find?] at hf
  | cons a l ih =>
    cases hp : (a.resId == rid) with
    | true =>
      simp only [List.find?, hp] at hf
      injection hf with hax
      subst hax
      have hpa : resActivePred rid a = true := by
        rcases hs with h | h <;> simp [resActivePred, hp, h]
      simp [List.find?, hpa]
    | false =>
      have hpa : resActivePred rid a = false := by simp [resActivePred, hp]
      simp only [List.find?, hp, hpa] at hf ⊢
      exact ih hf

/-- Under distinct primary keys, looking a member reservation up by its own
key finds exactly that row. -/
theorem find?_resId_of_nodup (l : List StockReservation) (c : StockReservation)
    (hnd : (l.map (fun r => r.resId)).Nodup) (hc : c ∈ l) :
    l.find? (fun r => r.resId == c.resId) = some c := by
  induction l with
  | nil => cases hc
  | cons a l ih =>
    rw [List.map_cons, List.nodup_cons] at hnd
    rcases List.mem_cons.mp hc with h | h
    · subst h
      simp [List.find?]
    · have hne : (a.resId == c.resId) = false := by
        simp only [beq_eq_false_iff_ne, ne_eq]
        intro he
        apply hnd.1
        rw [he]
        exact List.mem_map_of_mem _ h
      simp only [List.find?, hne]
      exact ih hnd.2 h

/-- When the lookup finds a row, the release service rewrites exactly that
row's status to `'released'` in the reservation table. -/
theorem release_reservations_found (s : LedgerState) (rid : Nat) (r : StockReservation)
    (hf : s.reservations.find? (resActivePred rid) = some r) :
    (InventoryService.release_stock s rid).2.reservations =
      s.reservations.map (fun x => if x.resId == r.resId
        then { r with status := ResStatus.released } else x) := by
  simp only [InventoryService.release_stock, hf]
  show (setRes (releaseLots s (allocationsOf s rid)) _).reservations = _
  simp only [setRes]
  rw [releaseLots_reservations]

/-- One pass of the sweep's release fold: every reservation of the batch
ends `'released'` (whatever happens on its lots), and every reservation id
outside the batch keeps its status.  The batch rows are assumed present
(looked up by their own id) with active status and distinct ids. -/
theorem sweep_fold_spec (l : List StockReservation) (s : LedgerState)
    (hl : ∀ x ∈ l, s.reservations.find? (fun r => r.resId == x.resId) = some x ∧
      (x.status = ResStatus.reserved ∨ x.status = ResStatus.partially_reserved))
    (hlnd : (l.map (fun r => r.resId)).Nodup) :
    (∀ x ∈ l, statusOf
        (l.foldl (fun st r => (InventoryService.release_stock st r.resId).2) s) x.resId =
        some ResStatus.released) ∧
      (∀ rid, (∀ x ∈ l, x.resId ≠ rid) →
        statusOf (l.foldl (fun st r => (InventoryService.release_stock st r.resId).2) s) rid =
          statusOf s rid) := by
  induction l generalizing s with
  | nil => exact ⟨fun x hx => absurd hx (List.not_mem_nil x), fun rid _ => rfl⟩
  | cons a l ih =>
    obtain ⟨hfa, hsa⟩ := hl a (List.mem_cons_self a l)
    have hfact := find?_resActive_of_find?_resId s.reservations a.resId a hfa hsa
    have hs1res := release_reservations_found s a.resId a hfact
    rw [List.map_cons, List.nodup_cons] at hlnd
    have hPa : statusOf (InventoryService.release_stock s a.resId).2 a.resId =
        some ResStatus.released := by
      unfold statusOf
      rw [hs1res, find?_resId_map_update s.reservations a.resId
        { a with status := ResStatus.released } rfl (by rw [hfa]; rfl)]
      rfl
    have hPne : ∀ rid, rid ≠ a.resId →
        statusOf (InventoryService.release_stock s a.resId).2 rid = statusOf s rid := by
      intro rid hne
      unfold statusOf
      rw [hs1res, find?_resId_map_update_ne s.reservations a.resId rid
        { a with status := ResStatus.released } rfl hne]
    have hl1 : ∀ x ∈ l, (InventoryService.release_stock s a.resId).2.reservations.find?
        (fun r => r.resId == x.resId) = some x ∧
        (x.status = ResStatus.reserved ∨ x.status = ResStatus.partially_reserved) := by
      intro x hx
      obtain ⟨hfx, hsx⟩ := hl x (List.mem_cons_of_mem a hx)
      refine ⟨?_, hsx⟩
      have hne : x.resId ≠ a.resId := by
        intro he
        apply hlnd.1
        rw [← he]
        exact List.mem_map_of_mem _ hx
      rw [hs1res, find?_resId_map_update_ne s.reservations a.resId x.resId
        { a with status := ResStatus.released } rfl hne]
      exact hfx
    obtain ⟨ih1, ih2⟩ := ih (InventoryService.release_stock s a.resId).2 hl1 hlnd.2
    constructor
    · intro x hx
      rcases List.mem_cons.mp hx with h | h
      · subst h
        have hALL : ∀ z ∈ l, z.resId ≠ x.resId := by
          intro z hz he
          apply hlnd.1
          rw [← he]
          exact List.mem_map_of_mem _ hz
        rw [List.foldl_cons, ih2 x.resId hALL]
        exact hPa
      · rw [List.foldl_cons]
        exact ih1 x h
    · intro rid hrid
      rw [List.foldl_cons, ih2 rid (fun z hz => hrid z (List.mem_cons_of_mem a hz))]
      exact hPne rid (fun he => hrid a (List.mem_cons_self a l) he.symm)

/-- C8: one pass of the expiry sweeper releases every reservation whose
status is `reserved`/`partially_reserved` and whose `expires_at` lies
before `now`, and leaves every other reservation's status unchanged.  The
statement holds for arbitrary ledger states, including inconsistent ones
where some per-lot release returns `False`: the sweep ignores each release
call's result, so one reservation's failure never blocks the others. -/
theorem C8_theorem (s : LedgerState) (now : Int)
    (hnd : (s.reservations.map (fun r => r.resId)).Nodup) :
    (∀ r ∈ s.reservations, expiredPred now r = true →
        statusOf (cleanup_expired_reservations s now) r.resId = some ResStatus.released) ∧
      (∀ r ∈ s.reservations, expiredPred now r = false →
        statusOf (cleanup_expired_reservations s now) r.resId = some r.status) := by
  have hsub : (s.reservations.filter (expiredPred now)).Sublist s.reservations :=
    List.filter_sublist _
  have hlnd : ((s.reservations.filter (expiredPred now)).map (fun r => r.resId)).Nodup :=
    List.Nodup.sublist (List.Sublist.map _ hsub) hnd
  have hl : ∀ x ∈ s.reservations.filter (expiredPred now),
      s.reservations.find? (fun r => r.resId == x.resId) = some x ∧
        (x.status = ResStatus.reserved ∨ x.status = ResStatus.partially_reserved) := by
    intro x hx
    have hmem := (List.mem_filter.mp hx).1
    have hpx := (List.mem_filter.mp hx).2
    refine ⟨find?_resId_of_nodup s.reservations x hnd hmem, ?_⟩
    simp only [expiredPred, Bool.and_eq_true, Bool.or_eq_true, beq_iff_eq] at hpx
    exact hpx.1
  obtain ⟨h1, h2⟩ := sweep_fold_spec (s.reservations.filter (expiredPred now)) s hl hlnd
  constructor
  · intro r hr hexp
    exact h1 r (List.mem_filter.mpr ⟨hr, hexp⟩)
  · intro r hr hexp
    have hrid : ∀ x ∈ s.reservations.filter (expiredPred now), x.resId ≠ r.resId := by
      intro x hx he
      have hxmem := (List.mem_filter.mp hx).1
      have hxr : x = r := List.inj_on_of_nodup_map hnd hxmem hr he
      have hpx := (List.mem_filter.mp hx).2
      rw [hxr, hexp] at hpx
      exact absurd hpx (by simp)
    have hkeep := h2 r.resId hrid
    have hself : statusOf s r.resId = some r.status := by
      unfold statusOf
      rw [find?_resId_of_nodup s.reservations r hnd hr]
      rfl
    exact hkeep.trans hself

/-- C8 witness: the sweep at `now = 50` on `sC8` (reservation 1 expired at
10, reservation 2 without expiry) — the theorem instantiates and shows
reservation 1 ends released while reservation 2 keeps its status. -/
theorem C8_witness :
    (sC8.reservations.map (fun r => r.resId)).Nodup ∧
      ((∀ r ∈ sC8.reservations, expiredPred 50 r = true →
          statusOf (cleanup_expired_reservations sC8 50) r.resId = some ResStatus.released) ∧
        (∀ r ∈ sC8.reservations, expiredPred 50 r = false →
          statusOf (cleanup_expired_reservations sC8 50) r.resId = some r.status)) :=
  ⟨by decide, C8_theorem sC8 50 (by decide)⟩

/-- C1 counterexample: from the valid lot `invC1` (on hand 5, reserved 0),
reserving 3 and then applying an approved adjustment of −10 yields on hand
0 with reserved still 3 and available −3: the claimed invariant
`reserved ≤ quantity ∧ available ≥ 0` fails on a reachable state. -/
theorem C1_counterexample :
    invC1.quantInvariant ∧
      (runOps invC1 c1ops).quantity = 0 ∧
      (runOps invC1 c1ops).reserved_quantity = 3 ∧
      (runOps invC1 c1ops).available_quantity = -3 ∧
      ¬ ((runOps invC1 c1ops).reserved_quantity ≤ (runOps invC1 c1ops).quantity ∧
          0 ≤ (runOps invC1 c1ops).available_quantity) := by
  decide
